import Mathlib

/-!
Verification of `data_factory_linked_service_azure_sql_database_resource.go`
(terraform-provider-azurerm, datafactory service).

The file under verification is a Terraform resource handler with three
operations: CreateUpdate, Read and Delete.  We embed the attribute bag
(`schema.ResourceData`) as the structure `State`, the SDK request/response
types as Lean structures, and each handler as a pure function from the
outcomes of the remote API calls it may perform to a result, a new state and
the ordered trace of remote calls it actually made.
-/

namespace DataFactorySQL

/-- Embeds `datafactory.SecureString` (the `Value` payload; the `Type`
discriminator is carried by the `SecretBase` constructor). -/
structure SecureString where
  value : String
deriving DecidableEq, Repr

/-- Embeds `datafactory.AzureKeyVaultSecretReference`. -/
structure AzureKeyVaultSecretReference where
  linkedServiceName : String
  secretName : String
deriving DecidableEq, Repr

/-- Embeds the `datafactory.SecretBase` interface: a secret is either an
inline secure string or a key-vault reference. -/
inductive SecretBase where
  | secureString (s : SecureString)
  | azureKeyVaultSecret (r : AzureKeyVaultSecretReference)
deriving DecidableEq, Repr

/-- Embeds `datafactory.IntegrationRuntimeReference` (the `ConnectVia` target). -/
structure IntegrationRuntimeReference where
  referenceName : Option String
deriving DecidableEq, Repr

/-- Embeds `datafactory.ParameterSpecification` restricted to the string
parameters this resource uses (`DefaultValue`). -/
structure ParameterSpecification where
  defaultValue : String
deriving DecidableEq, Repr

/-- Embeds `datafactory.AzureSQLDatabaseLinkedServiceTypeProperties`.
Pointer fields become `Option`; `ConnectionString` is `interface{}` in the
SDK, so it is embedded as an arbitrary `SecretBase`. -/
structure AzureSQLDatabaseLinkedServiceTypeProperties where
  connectionString : Option SecretBase := none
  servicePrincipalID : Option String := none
  servicePrincipalKey : Option SecureString := none
  tenant : Option String := none
  password : Option SecretBase := none
deriving DecidableEq, Repr

/-- Embeds `datafactory.AzureSQLDatabaseLinkedService`.  Go maps become
association lists. -/
structure AzureSQLDatabaseLinkedService where
  description : Option String := none
  typeProperties : AzureSQLDatabaseLinkedServiceTypeProperties := {}
  parameters : Option (List (String × ParameterSpecification)) := none
  annotations : Option (List String) := none
  connectVia : Option IntegrationRuntimeReference := none
  additionalProperties : Option (List (String × String)) := none
deriving DecidableEq, Repr

/-- The properties carried by a linked-service Get response: either the
Azure SQL Database shape (so `AsAzureSQLDatabaseLinkedService` succeeds) or
some other linked-service type (the cast fails). -/
inductive LinkedServiceDef where
  | azureSQLDatabase (sql : AzureSQLDatabaseLinkedService)
  | otherType (typeName : String)
deriving DecidableEq, Repr

/-- One `key_vault_password` block of the schema. -/
structure KeyVaultPasswordBlock where
  linkedServiceName : String
  secretName : String
deriving DecidableEq, Repr

/-- Embeds the `schema.ResourceData` attribute bag for this resource: the
stored resource identifier (`d.Id()`, empty string when unset) plus one field
per schema attribute, each holding its zero value when unset, matching the
Terraform SDK convention that `d.Get` of an unset attribute yields the zero
value and `d.GetOk` reports the zero value as absent. -/
structure State where
  id : String := ""
  name : String := ""
  dataFactoryName : String := ""
  resourceGroupName : String := ""
  connectionString : String := ""
  description : String := ""
  keyVaultPassword : List KeyVaultPasswordBlock := []
  useManagedIdentity : Bool := false
  servicePrincipalID : String := ""
  servicePrincipalKey : String := ""
  tenantID : String := ""
  integrationRuntimeName : String := ""
  parameters : List (String × String) := []
  annotations : List String := []
  additionalProperties : List (String × String) := []
deriving DecidableEq, Repr

/-- The kind of a remote management-API call made through the
`LinkedServiceClient`. -/
inductive CallKind where
  | get
  | createOrUpdate
  | delete
deriving DecidableEq, Repr

/-- One remote API call, recording the addressing triple and, for
create-or-update, the request payload sent. -/
structure RemoteCall where
  kind : CallKind
  resourceGroup : String
  factoryName : String
  name : String
  payload : Option AzureSQLDatabaseLinkedService := none
deriving DecidableEq, Repr

/-- The errors the handlers can return, one constructor per `fmt.Errorf`
site (and one for the parse error forwarded verbatim).  Each constructor
records exactly the identifiers interpolated into the Go error message. -/
inductive HandlerError where
  | checkingExisting (name factoryName resourceGroup : String)
  | importAsExists (resourceId : String)
  | creatingUpdating (name factoryName resourceGroup : String)
  | retrieving (name factoryName resourceGroup : String)
  | idWasNil (name factoryName resourceGroup : String)
  | parseIdError (rawId : String)
  | classifying (name factoryName resourceGroup : String)
  | deleting (name factoryName resourceGroup : String)
deriving DecidableEq, Repr

/-- The identifiers a handler error message interpolates, when it carries the
full (name, data factory, resource group) triple. -/
def HandlerError.mentionedTriple : HandlerError → Option (String × String × String)
  | .checkingExisting n f r => some (n, f, r)
  | .importAsExists _ => none
  | .creatingUpdating n f r => some (n, f, r)
  | .retrieving n f r => some (n, f, r)
  | .idWasNil n f r => some (n, f, r)
  | .parseIdError _ => none
  | .classifying n f r => some (n, f, r)
  | .deleting n f r => some (n, f, r)

/-- Result of one handler invocation: the returned error (`none` = Go `nil`,
success), the attribute bag after all `d.Set`/`d.SetId` effects, and the
ordered list of remote API calls actually made. -/
structure Outcome where
  result : Option HandlerError
  state : State
  calls : List RemoteCall
deriving DecidableEq, Repr

/-- Outcome of `client.Get`: whether it returned an error, whether the HTTP
response was 404 (`utils.ResponseWasNotFound`), and the body fields the
handlers look at (`ID`, `Name`, `Properties`), each a pointer in Go. -/
structure GetResult where
  errored : Bool
  wasNotFound : Bool := false
  id : Option String := none
  name : Option String := none
  properties : Option LinkedServiceDef := none
deriving DecidableEq, Repr

/-- The parsed form of a linked-service resource identifier
(`parse.LinkedServiceId`). -/
structure LinkedServiceId where
  resourceGroup : String
  factoryName : String
  name : String
deriving DecidableEq, Repr

/-- Splits a character list at every slash, keeping empty segments, the
segment decomposition `strings.Split(s, "/")` performs on resource IDs. -/
def splitSegs : List Char → List (List Char)
  | [] => [[]]
  | c :: cs =>
    let rest := splitSegs cs
    if c = '/' then [] :: rest
    else
      match rest with
      | s :: ss => (c :: s) :: ss
      | [] => [[c]]

/-- Splits a string at every slash into its segments. -/
def splitSlash (s : String) : List String :=
  (splitSegs s.data).map fun cs => String.mk cs

/-- Modelled from the spec: `parse.LinkedServiceID` is not under `src/`; per
the spec the remote API is addressed "by resource-group, parent-service, and
resource name" and Read/Delete obtain that triple by parsing "the stored
resource identifier string".  An Azure linked-service ID has the canonical
segment shape below; anything else is rejected with an error. -/
def parseLinkedServiceID (raw : String) : Option LinkedServiceId :=
  match splitSlash raw with
  | ["", "subscriptions", _, "resourceGroups", rg, "providers",
     "Microsoft.DataFactory", "factories", f, "linkedservices", n] =>
      some { resourceGroup := rg, factoryName := f, name := n }
  | _ => none

/-- Modelled from the spec: `expandAzureKeyVaultPassword` is not under
`src/`; per the spec the file is "a bidirectional field-mapping layer", so
the single `key_vault_password` block maps to an
`AzureKeyVaultSecretReference` secret carrying its two attributes. -/
def expandAzureKeyVaultPassword (input : List KeyVaultPasswordBlock) : Option SecretBase :=
  match input with
  | b :: _ => some (SecretBase.azureKeyVaultSecret
      { linkedServiceName := b.linkedServiceName, secretName := b.secretName })
  | [] => none

/-- Modelled from the spec: `flattenAzureKeyVaultPassword` is not under
`src/`; the inverse direction of the key-vault password field mapping. -/
def flattenAzureKeyVaultPassword (r : AzureKeyVaultSecretReference) : List KeyVaultPasswordBlock :=
  [{ linkedServiceName := r.linkedServiceName, secretName := r.secretName }]

/-- Modelled from the spec: `expandDataFactoryParameters` is not under
`src/`; each configured parameter becomes a string parameter specification
whose default value is the configured value. -/
def expandDataFactoryParameters (input : List (String × String)) :
    List (String × ParameterSpecification) :=
  input.map (fun p => (p.1, { defaultValue := p.2 }))

/-- Modelled from the spec: `flattenDataFactoryParameters` is not under
`src/`; the inverse direction, reading each parameter's default value (a nil
map flattens to the empty attribute map). -/
def flattenDataFactoryParameters (input : Option (List (String × ParameterSpecification))) :
    List (String × String) :=
  (input.getD []).map (fun p => (p.1, p.2.defaultValue))

/-- Modelled from the spec: `flattenDataFactoryAnnotations` is not under
`src/`; a nil annotation list flattens to the empty list, otherwise the
string annotations are returned as configured. -/
def flattenDataFactoryAnnotations (input : Option (List String)) : List String :=
  input.getD []

/-- Modelled from the spec: `expandDataFactoryLinkedServiceIntegrationRuntime`
is not under `src/`; the configured runtime name becomes an integration
runtime reference by that name. -/
def expandDataFactoryLinkedServiceIntegrationRuntime (name : String) :
    IntegrationRuntimeReference :=
  { referenceName := some name }

/-- The request payload built by `CreateUpdate` (source lines 177-229): the
`sqlDatabaseProperties` and `azureSQLDatabaseLinkedService` construction,
translated field assignment by field assignment.  `d.GetOk` is true exactly
when the attribute differs from its zero value. -/
def buildAzureSQLDatabaseLinkedService (d : State) : AzureSQLDatabaseLinkedService :=
  let props0 : AzureSQLDatabaseLinkedServiceTypeProperties := {}
  let props1 :=
    if d.connectionString ≠ "" then
      { props0 with
          connectionString := some (SecretBase.secureString { value := d.connectionString }) }
    else props0
  let props2 :=
    if d.useManagedIdentity then
      { props1 with tenant := some d.tenantID }
    else
      { props1 with
          servicePrincipalID := some d.servicePrincipalID,
          tenant := some d.tenantID,
          servicePrincipalKey := some { value := d.servicePrincipalKey } }
  let props3 :=
    if d.keyVaultPassword ≠ [] then
      { props2 with
          password := expandAzureKeyVaultPassword d.keyVaultPassword }
    else props2
  let ls0 : AzureSQLDatabaseLinkedService :=
    { description := some d.description, typeProperties := props3 }
  let ls1 :=
    if d.parameters ≠ [] then
      { ls0 with parameters := some (expandDataFactoryParameters d.parameters) }
    else ls0
  let ls2 :=
    if d.integrationRuntimeName ≠ "" then
      { ls1 with
          connectVia := some (expandDataFactoryLinkedServiceIntegrationRuntime d.integrationRuntimeName) }
    else ls1
  let ls3 :=
    if d.additionalProperties ≠ [] then
      { ls2 with additionalProperties := some d.additionalProperties }
    else ls2
  if d.annotations ≠ [] then
    { ls3 with annotations := some d.annotations }
  else ls3

/-- Embeds `resourceDataFactoryLinkedServiceAzureSQLDatabaseRead` (source
lines 249-319).  `getResult` is the outcome the remote `Get` would produce if
made; the trace records whether it was made. -/
def read (getResult : GetResult) (d : State) : Outcome :=
  match parseLinkedServiceID d.id with
  | none => { result := some (.parseIdError d.id), state := d, calls := [] }
  | some lid =>
    let call : RemoteCall :=
      { kind := .get, resourceGroup := lid.resourceGroup,
        factoryName := lid.factoryName, name := lid.name }
    if getResult.errored then
      if getResult.wasNotFound then
        { result := none, state := { d with id := "" }, calls := [call] }
      else
        { result := some (.retrieving lid.name lid.factoryName lid.resourceGroup),
          state := d, calls := [call] }
    else
      let d1 := { d with
        name := getResult.name.getD "",
        resourceGroupName := lid.resourceGroup,
        dataFactoryName := lid.factoryName }
      match getResult.properties with
      | some (.azureSQLDatabase sql) =>
        let d2 :=
          match sql.typeProperties.tenant with
          | some t => { d1 with tenantID := t }
          | none => d1
        let d3 :=
          match sql.typeProperties.servicePrincipalID with
          | some sp => { d2 with servicePrincipalID := sp, useManagedIdentity := false }
          | none => { d2 with useManagedIdentity := true }
        let d4 := { d3 with
          additionalProperties := sql.additionalProperties.getD [],
          description := sql.description.getD "" }
        let d5 :=
          match sql.typeProperties.password with
          | some (.azureKeyVaultSecret r) =>
              { d4 with keyVaultPassword := flattenAzureKeyVaultPassword r }
          | _ => d4
        let d6 := { d5 with annotations := flattenDataFactoryAnnotations sql.annotations }
        let d7 := { d6 with parameters := flattenDataFactoryParameters sql.parameters }
        let d8 :=
          match sql.connectVia with
          | some cv =>
            match cv.referenceName with
            | some rn => { d7 with integrationRuntimeName := rn }
            | none => d7
          | none => d7
        { result := none, state := d8, calls := [call] }
      | _ =>
        { result := some (.classifying lid.name lid.factoryName lid.resourceGroup),
          state := d1, calls := [call] }

/-- Embeds `resourceDataFactoryLinkedServiceAzureSQLDatabaseCreateUpdate`
(source lines 155-247).  `existingResult` is what the existence-check `Get`
would return, `couErrored` whether `CreateOrUpdate` would fail,
`rereadResult` what the post-create `Get` would return, and
`finalReadResult` what the `Get` inside the trailing `Read` call would
return; the trace records which of these calls were actually made. -/
def createUpdate (existingResult : GetResult) (couErrored : Bool)
    (rereadResult : GetResult) (finalReadResult : GetResult)
    (isNew : Bool) (d : State) : Outcome :=
  let name := d.name
  let dataFactoryName := d.dataFactoryName
  let resourceGroup := d.resourceGroupName
  let getCall : RemoteCall :=
    { kind := .get, resourceGroup := resourceGroup,
      factoryName := dataFactoryName, name := name }
  let preCalls : List RemoteCall := if isNew then [getCall] else []
  let earlyErr : Option HandlerError :=
    if isNew then
      if existingResult.errored && !existingResult.wasNotFound then
        some (.checkingExisting name dataFactoryName resourceGroup)
      else
        match existingResult.id with
        | some i => if i ≠ "" then some (.importAsExists i) else none
        | none => none
    else none
  match earlyErr with
  | some e => { result := some e, state := d, calls := preCalls }
  | none =>
    let linkedService := buildAzureSQLDatabaseLinkedService d
    let couCall : RemoteCall :=
      { kind := .createOrUpdate, resourceGroup := resourceGroup,
        factoryName := dataFactoryName, name := name,
        payload := some linkedService }
    if couErrored then
      { result := some (.creatingUpdating name dataFactoryName resourceGroup),
        state := d, calls := preCalls ++ [couCall] }
    else if rereadResult.errored then
      { result := some (.retrieving name dataFactoryName resourceGroup),
        state := d, calls := preCalls ++ [couCall, getCall] }
    else
      match rereadResult.id with
      | none =>
        { result := some (.idWasNil name dataFactoryName resourceGroup),
          state := d, calls := preCalls ++ [couCall, getCall] }
      | some rid =>
        let ro := read finalReadResult { d with id := rid }
        { result := ro.result, state := ro.state,
          calls := preCalls ++ [couCall, getCall] ++ ro.calls }

/-- Embeds `resourceDataFactoryLinkedServiceAzureSQLDatabaseDelete` (source
lines 321-339).  `deleteErrored` / `deleteWasNotFound` describe the outcome
the remote `Delete` would produce. -/
def delete (deleteErrored deleteWasNotFound : Bool) (d : State) : Outcome :=
  match parseLinkedServiceID d.id with
  | none => { result := some (.parseIdError d.id), state := d, calls := [] }
  | some lid =>
    let call : RemoteCall :=
      { kind := .delete, resourceGroup := lid.resourceGroup,
        factoryName := lid.factoryName, name := lid.name }
    if deleteErrored && !deleteWasNotFound then
      { result := some (.deleting lid.name lid.factoryName lid.resourceGroup),
        state := d, calls := [call] }
    else
      { result := none, state := d, calls := [call] }

/-- A remote call addresses the triple (resource group, factory, name). -/
def RemoteCall.addresses (c : RemoteCall) (rg f n : String) : Prop :=
  c.resourceGroup = rg ∧ c.factoryName = f ∧ c.name = n

instance (c : RemoteCall) (rg f n : String) : Decidable (c.addresses rg f n) := by
  unfold RemoteCall.addresses; infer_instance

/-- The attribute bag produced by a successful, correctly-classified `Read`:
the closed form of the `d.Set` cascade of source lines 269-316, as a function
of the prior state, the parsed identifier, the response name and the
flattened SQL linked service. -/
def flattenIntoState (d : State) (lid : LinkedServiceId) (respName : Option String)
    (sql : AzureSQLDatabaseLinkedService) : State :=
  { d with
    name := respName.getD "",
    resourceGroupName := lid.resourceGroup,
    dataFactoryName := lid.factoryName,
    tenantID := sql.typeProperties.tenant.getD d.tenantID,
    servicePrincipalID := sql.typeProperties.servicePrincipalID.getD d.servicePrincipalID,
    useManagedIdentity := sql.typeProperties.servicePrincipalID.isNone,
    additionalProperties := sql.additionalProperties.getD [],
    description := sql.description.getD "",
    keyVaultPassword :=
      (match sql.typeProperties.password with
       | some (.azureKeyVaultSecret r) => flattenAzureKeyVaultPassword r
       | _ => d.keyVaultPassword),
    annotations := flattenDataFactoryAnnotations sql.annotations,
    parameters := flattenDataFactoryParameters sql.parameters,
    integrationRuntimeName :=
      (match sql.connectVia with
       | some cv => cv.referenceName.getD d.integrationRuntimeName
       | none => d.integrationRuntimeName) }

/-- The existence check of a new-resource CreateUpdate passes (no early
return): the `Get` either succeeded or was a 404, and the returned ID was nil
or empty. -/
def existenceCheckPasses (isNew : Bool) (e : GetResult) : Prop :=
  isNew = true → (e.errored = false ∨ e.wasNotFound = true) ∧ (e.id = none ∨ e.id = some "")

instance (isNew : Bool) (e : GetResult) : Decidable (existenceCheckPasses isNew e) := by
  unfold existenceCheckPasses; infer_instance

/-- The `Get` call CreateUpdate issues, addressed by the configured triple. -/
def getCallOf (d : State) : RemoteCall :=
  { kind := .get, resourceGroup := d.resourceGroupName,
    factoryName := d.dataFactoryName, name := d.name }

/-- The `CreateOrUpdate` call CreateUpdate issues, addressed by the
configured triple and carrying the built request. -/
def couCallOf (d : State) : RemoteCall :=
  { kind := .createOrUpdate, resourceGroup := d.resourceGroupName,
    factoryName := d.dataFactoryName, name := d.name,
    payload := some (buildAzureSQLDatabaseLinkedService d) }

theorem buildAzureSQLDatabaseLinkedService_eq (d : State) :
    buildAzureSQLDatabaseLinkedService d =
      { description := some d.description,
        typeProperties :=
          { connectionString :=
              if d.connectionString ≠ "" then
                some (SecretBase.secureString { value := d.connectionString })
              else none,
            servicePrincipalID :=
              if d.useManagedIdentity then none else some d.servicePrincipalID,
            servicePrincipalKey :=
              if d.useManagedIdentity then none else some { value := d.servicePrincipalKey },
            tenant := some d.tenantID,
            password :=
              if d.keyVaultPassword ≠ [] then expandAzureKeyVaultPassword d.keyVaultPassword
              else none },
        parameters :=
          if d.parameters ≠ [] then some (expandDataFactoryParameters d.parameters) else none,
        annotations := if d.annotations ≠ [] then some d.annotations else none,
        connectVia :=
          if d.integrationRuntimeName ≠ "" then
            some (expandDataFactoryLinkedServiceIntegrationRuntime d.integrationRuntimeName)
          else none,
        additionalProperties :=
          if d.additionalProperties ≠ [] then some d.additionalProperties else none } := by
  simp only [buildAzureSQLDatabaseLinkedService]
  cases d.useManagedIdentity <;>
    by_cases h1 : d.connectionString = "" <;>
    by_cases h2 : d.keyVaultPassword = [] <;>
    by_cases h3 : d.parameters = [] <;>
    by_cases h4 : d.integrationRuntimeName = "" <;>
    by_cases h5 : d.additionalProperties = [] <;>
    by_cases h6 : d.annotations = [] <;>
    simp [h1, h2, h3, h4, h5, h6]

theorem flattenDataFactoryParameters_expand (l : List (String × String)) :
    flattenDataFactoryParameters (some (expandDataFactoryParameters l)) = l := by
  induction l with
  | nil => rfl
  | cons p t ih =>
    cases p
    simpa [flattenDataFactoryParameters, expandDataFactoryParameters] using ih

theorem flattenDataFactoryParameters_none :
    flattenDataFactoryParameters none = [] := rfl

theorem read_success (g : GetResult) (d : State) (lid : LinkedServiceId)
    (sql : AzureSQLDatabaseLinkedService)
    (hp : parseLinkedServiceID d.id = some lid)
    (he : g.errored = false)
    (hs : g.properties = some (.azureSQLDatabase sql)) :
    read g d =
      { result := none,
        state := flattenIntoState d lid g.name sql,
        calls := [{ kind := .get, resourceGroup := lid.resourceGroup,
                    factoryName := lid.factoryName, name := lid.name }] } := by
  obtain ⟨desc, tp, par, ann, cv, ap⟩ := sql
  obtain ⟨cs, spid, spk, ten, pw⟩ := tp
  cases ten <;> cases spid <;>
    rcases pw with _ | (s | kr) <;>
    rcases cv with _ | ⟨_ | rn⟩ <;>
    simp [read, hp, he, hs, flattenIntoState]

theorem read_state_preserves (g : GetResult) (d : State) :
    (read g d).state.connectionString = d.connectionString ∧
    (read g d).state.servicePrincipalKey = d.servicePrincipalKey := by
  rcases g with ⟨ge, gnf, gi, gn, gp⟩
  unfold read
  rcases parseLinkedServiceID d.id with _ | lid
  · exact ⟨rfl, rfl⟩
  · cases ge <;> cases gnf <;>
      rcases gp with _ | (⟨desc, ⟨cs, spid, spk, ten, pw⟩, par, ann, cv, ap⟩ | t) <;>
      first
        | exact ⟨rfl, rfl⟩
        | (cases ten <;> cases spid <;> rcases pw with _ | (s | kr) <;>
           rcases cv with _ | ⟨_ | rn⟩ <;> exact ⟨rfl, rfl⟩)

theorem read_calls_eq (g : GetResult) (d : State) (lid : LinkedServiceId)
    (hp : parseLinkedServiceID d.id = some lid) :
    (read g d).calls = [{ kind := .get, resourceGroup := lid.resourceGroup,
                          factoryName := lid.factoryName, name := lid.name }] := by
  rcases g with ⟨ge, gnf, gi, gn, gp⟩
  simp only [read, hp]
  cases ge <;> cases gnf <;> rcases gp with _ | (sql | t) <;> rfl

theorem delete_calls_eq (dE dNF : Bool) (d : State) (lid : LinkedServiceId)
    (hp : parseLinkedServiceID d.id = some lid) :
    (delete dE dNF d).calls = [{ kind := .delete, resourceGroup := lid.resourceGroup,
                                 factoryName := lid.factoryName, name := lid.name }] := by
  simp only [delete, hp]
  cases dE <;> cases dNF <;> rfl

/-- Claim C2: when the remote Get of a Read fails as not-found, Read clears
the stored identifier and returns success; when the remote Delete of a
Delete fails as not-found, Delete returns success.  Neither surfaces the
not-found as an error. -/
theorem c2_not_found_is_treated_as_deleted (g : GetResult) (d e : State)
    (lidR lidD : LinkedServiceId)
    (hpR : parseLinkedServiceID d.id = some lidR)
    (hge : g.errored = true) (hgnf : g.wasNotFound = true)
    (hpD : parseLinkedServiceID e.id = some lidD) :
    ((read g d).result = none ∧ (read g d).state.id = "")
    ∧ (delete true true e).result = none := by
  constructor
  · constructor <;> simp [read, hpR, hge, hgnf]
  · simp [delete, hpD]

/-- Witness for C2 at a concrete parseable identifier. -/
theorem c2_not_found_is_treated_as_deleted_witness :
    (parseLinkedServiceID "/subscriptions/s/resourceGroups/rg1/providers/Microsoft.DataFactory/factories/df1/linkedservices/ls1"
      = some { resourceGroup := "rg1", factoryName := "df1", name := "ls1" })
    ∧ (((read { errored := true, wasNotFound := true }
          { id := "/subscriptions/s/resourceGroups/rg1/providers/Microsoft.DataFactory/factories/df1/linkedservices/ls1" }).result = none
        ∧ (read { errored := true, wasNotFound := true }
          { id := "/subscriptions/s/resourceGroups/rg1/providers/Microsoft.DataFactory/factories/df1/linkedservices/ls1" }).state.id = "")
       ∧ (delete true true
          { id := "/subscriptions/s/resourceGroups/rg1/providers/Microsoft.DataFactory/factories/df1/linkedservices/ls1" }).result = none) := by
  refine ⟨by decide, ?_⟩
  exact c2_not_found_is_treated_as_deleted { errored := true, wasNotFound := true }
    { id := "/subscriptions/s/resourceGroups/rg1/providers/Microsoft.DataFactory/factories/df1/linkedservices/ls1" }
    { id := "/subscriptions/s/resourceGroups/rg1/providers/Microsoft.DataFactory/factories/df1/linkedservices/ls1" }
    { resourceGroup := "rg1", factoryName := "df1", name := "ls1" }
    { resourceGroup := "rg1", factoryName := "df1", name := "ls1" }
    (by decide) rfl rfl (by decide)

/-- Claim C3: on a new resource, an existence check finding a non-nil,
non-empty ID makes CreateUpdate return the import-as-exists error, with no
create-or-update call made and the state unchanged. -/
theorem c3_existing_resource_blocks_create (e : GetResult) (cE : Bool) (r fr : GetResult)
    (d : State) (i : String)
    (hid : e.id = some i) (hne : i ≠ "")
    (hnf : e.errored = true → e.wasNotFound = true) :
    createUpdate e cE r fr true d =
      { result := some (.importAsExists i), state := d,
        calls := [{ kind := .get, resourceGroup := d.resourceGroupName,
                    factoryName := d.dataFactoryName, name := d.name }] } := by
  cases hge : e.errored with
  | false => simp [createUpdate, hid, hne, hge]
  | true => simp [createUpdate, hid, hne, hge, hnf hge]

/-- Witness for C3 at a concrete existing resource. -/
theorem c3_existing_resource_blocks_create_witness :
    (("someId" : String) ≠ ""
     ∧ ({ errored := false, id := some "someId" } : GetResult).id = some "someId")
    ∧ createUpdate { errored := false, id := some "someId" } true { errored := false }
        { errored := false } true { name := "n1", dataFactoryName := "f1", resourceGroupName := "g1" } =
      { result := some (.importAsExists "someId"),
        state := { name := "n1", dataFactoryName := "f1", resourceGroupName := "g1" },
        calls := [{ kind := .get, resourceGroup := "g1", factoryName := "f1", name := "n1" }] } := by
  refine ⟨⟨by decide, rfl⟩, ?_⟩
  exact c3_existing_resource_blocks_create { errored := false, id := some "someId" } true
    { errored := false } { errored := false }
    { name := "n1", dataFactoryName := "f1", resourceGroupName := "g1" } "someId"
    rfl (by decide) (by simp)

/-- Claim C6: after a successful, correctly-classified Read,
`use_managed_identity` is false exactly when the response carries a non-nil
service-principal ID and true otherwise, regardless of the previous state,
and `service_principal_id` is written back only when non-nil. -/
theorem c6_use_managed_identity_mirrors_service_principal (g : GetResult) (d : State)
    (lid : LinkedServiceId) (sql : AzureSQLDatabaseLinkedService)
    (hp : parseLinkedServiceID d.id = some lid)
    (he : g.errored = false)
    (hs : g.properties = some (.azureSQLDatabase sql)) :
    ((read g d).state.useManagedIdentity = false ↔
        ∃ sp, sql.typeProperties.servicePrincipalID = some sp)
    ∧ (∀ sp, sql.typeProperties.servicePrincipalID = some sp →
        (read g d).state.servicePrincipalID = sp)
    ∧ (sql.typeProperties.servicePrincipalID = none →
        (read g d).state.servicePrincipalID = d.servicePrincipalID) := by
  rw [read_success g d lid sql hp he hs]
  cases hsp : sql.typeProperties.servicePrincipalID <;>
    simp [flattenIntoState, hsp]

/-- Witness for C6: a response with a service-principal ID flips
`use_managed_identity` to false even though it was true in state. -/
theorem c6_use_managed_identity_mirrors_service_principal_witness :
    ((read { errored := false,
             properties := some (.azureSQLDatabase
               { typeProperties := { servicePrincipalID := some "spid1" } }) }
        { id := "/subscriptions/s/resourceGroups/rg1/providers/Microsoft.DataFactory/factories/df1/linkedservices/ls1",
          useManagedIdentity := true }).state.useManagedIdentity = false
      ↔ ∃ sp, (({ typeProperties := { servicePrincipalID := some "spid1" } } :
            AzureSQLDatabaseLinkedService)).typeProperties.servicePrincipalID = some sp)
    ∧ (read { errored := false,
              properties := some (.azureSQLDatabase
                { typeProperties := { servicePrincipalID := some "spid1" } }) }
        { id := "/subscriptions/s/resourceGroups/rg1/providers/Microsoft.DataFactory/factories/df1/linkedservices/ls1",
          useManagedIdentity := true }).state.servicePrincipalID = "spid1" := by
  have h := c6_use_managed_identity_mirrors_service_principal
    { errored := false,
      properties := some (.azureSQLDatabase
        { typeProperties := { servicePrincipalID := some "spid1" } }) }
    { id := "/subscriptions/s/resourceGroups/rg1/providers/Microsoft.DataFactory/factories/df1/linkedservices/ls1",
      useManagedIdentity := true }
    { resourceGroup := "rg1", factoryName := "df1", name := "ls1" }
    { typeProperties := { servicePrincipalID := some "spid1" } }
    (by decide) rfl rfl
  exact ⟨h.1, h.2.1 "spid1" rfl⟩

/-- Claim C7: the built request carries the tenant in both authentication
modes; with managed identity it carries no service-principal ID or key;
without it it always carries both, the key as a secure string, even when the
attributes are unset (empty strings). -/
theorem c7_request_auth_fields (d : State) :
    (buildAzureSQLDatabaseLinkedService d).typeProperties.tenant = some d.tenantID
    ∧ (d.useManagedIdentity = true →
        (buildAzureSQLDatabaseLinkedService d).typeProperties.servicePrincipalID = none
        ∧ (buildAzureSQLDatabaseLinkedService d).typeProperties.servicePrincipalKey = none)
    ∧ (d.useManagedIdentity = false →
        (buildAzureSQLDatabaseLinkedService d).typeProperties.servicePrincipalID
            = some d.servicePrincipalID
        ∧ (buildAzureSQLDatabaseLinkedService d).typeProperties.servicePrincipalKey
            = some { value := d.servicePrincipalKey }) := by
  rw [buildAzureSQLDatabaseLinkedService_eq]
  cases h : d.useManagedIdentity <;> simp [h]

/-- Witness for C7 in both modes, with the service-principal attributes
unset: empty strings are still sent in the non-managed-identity mode. -/
theorem c7_request_auth_fields_witness :
    ((buildAzureSQLDatabaseLinkedService { connectionString := "cs" }).typeProperties.tenant = some ""
     ∧ (buildAzureSQLDatabaseLinkedService { connectionString := "cs" }).typeProperties.servicePrincipalID = some ""
     ∧ (buildAzureSQLDatabaseLinkedService { connectionString := "cs" }).typeProperties.servicePrincipalKey
         = some { value := "" })
    ∧ ((buildAzureSQLDatabaseLinkedService { connectionString := "cs", useManagedIdentity := true }).typeProperties.tenant = some ""
     ∧ (buildAzureSQLDatabaseLinkedService { connectionString := "cs", useManagedIdentity := true }).typeProperties.servicePrincipalID = none
     ∧ (buildAzureSQLDatabaseLinkedService { connectionString := "cs", useManagedIdentity := true }).typeProperties.servicePrincipalKey = none) := by
  have h1 := c7_request_auth_fields { connectionString := "cs" }
  have h2 := c7_request_auth_fields { connectionString := "cs", useManagedIdentity := true }
  exact ⟨⟨h1.1, (h1.2.2 rfl).1, (h1.2.2 rfl).2⟩, ⟨h2.1, (h2.2.1 rfl).1, (h2.2.1 rfl).2⟩⟩

/-- Claim C8: Read never writes `connection_string` or
`service_principal_key`, and the connection string is sent to the API only
wrapped as a secure string. -/
theorem c8_secrets_never_read_back (g : GetResult) (d : State) :
    (read g d).state.connectionString = d.connectionString
    ∧ (read g d).state.servicePrincipalKey = d.servicePrincipalKey
    ∧ (∀ s, (buildAzureSQLDatabaseLinkedService d).typeProperties.connectionString = some s →
        s = SecretBase.secureString { value := d.connectionString }) := by
  refine ⟨(read_state_preserves g d).1, (read_state_preserves g d).2, ?_⟩
  intro s hsome
  rw [buildAzureSQLDatabaseLinkedService_eq] at hsome
  by_cases hc : d.connectionString = ""
  · simp [hc] at hsome
  · simp [hc] at hsome
    exact hsome.symm

/-- Witness for C8 on a state whose secrets would be overwritten if Read
touched them. -/
theorem c8_secrets_never_read_back_witness :
    ((read { errored := false,
             properties := some (.azureSQLDatabase { typeProperties := {} }) }
        { id := "/subscriptions/s/resourceGroups/rg1/providers/Microsoft.DataFactory/factories/df1/linkedservices/ls1",
          connectionString := "secret-cs", servicePrincipalKey := "secret-key" }).state.connectionString = "secret-cs"
    ∧ (read { errored := false,
              properties := some (.azureSQLDatabase { typeProperties := {} }) }
        { id := "/subscriptions/s/resourceGroups/rg1/providers/Microsoft.DataFactory/factories/df1/linkedservices/ls1",
          connectionString := "secret-cs", servicePrincipalKey := "secret-key" }).state.servicePrincipalKey = "secret-key")
    ∧ SecretBase.secureString { value := "secret-cs" }
        = SecretBase.secureString { value := "secret-cs" } := by
  have h := c8_secrets_never_read_back
    { errored := false, properties := some (.azureSQLDatabase { typeProperties := {} }) }
    { id := "/subscriptions/s/resourceGroups/rg1/providers/Microsoft.DataFactory/factories/df1/linkedservices/ls1",
      connectionString := "secret-cs", servicePrincipalKey := "secret-key" }
  exact ⟨⟨h.1, h.2.1⟩, (h.2.2 (SecretBase.secureString { value := "secret-cs" }) (by decide)) ▸ rfl⟩

/-- Claim C4: every remote-call failure not excused as not-found is returned
immediately, as an error carrying the linked-service name, the data factory
name and the resource group, and no further remote call is attempted: the
five failure sites (existence-check Get, CreateOrUpdate and post-create Get
in CreateUpdate; Get in Read; Delete in Delete), each with the exact trace
of calls made up to and including the failed one. -/
theorem c4_failures_wrapped_and_immediate
    (e : GetResult) (cE : Bool) (r fr : GetResult) (isNew : Bool)
    (g : GetResult) (dE dNF : Bool) (d dr dd : State) :
    (isNew = true → e.errored = true → e.wasNotFound = false →
      (createUpdate e cE r fr isNew d).result
          = some (.checkingExisting d.name d.dataFactoryName d.resourceGroupName)
      ∧ ((createUpdate e cE r fr isNew d).result.bind HandlerError.mentionedTriple
          = some (d.name, d.dataFactoryName, d.resourceGroupName))
      ∧ (createUpdate e cE r fr isNew d).calls = [getCallOf d])
    ∧ (existenceCheckPasses isNew e → cE = true →
      (createUpdate e cE r fr isNew d).result
          = some (.creatingUpdating d.name d.dataFactoryName d.resourceGroupName)
      ∧ ((createUpdate e cE r fr isNew d).result.bind HandlerError.mentionedTriple
          = some (d.name, d.dataFactoryName, d.resourceGroupName))
      ∧ (createUpdate e cE r fr isNew d).calls
          = (if isNew then [getCallOf d] else []) ++ [couCallOf d])
    ∧ (existenceCheckPasses isNew e → cE = false → r.errored = true →
      (createUpdate e cE r fr isNew d).result
          = some (.retrieving d.name d.dataFactoryName d.resourceGroupName)
      ∧ ((createUpdate e cE r fr isNew d).result.bind HandlerError.mentionedTriple
          = some (d.name, d.dataFactoryName, d.resourceGroupName))
      ∧ (createUpdate e cE r fr isNew d).calls
          = (if isNew then [getCallOf d] else []) ++ [couCallOf d, getCallOf d])
    ∧ (∀ lid, parseLinkedServiceID dr.id = some lid →
        g.errored = true → g.wasNotFound = false →
      (read g dr).result = some (.retrieving lid.name lid.factoryName lid.resourceGroup)
      ∧ ((read g dr).result.bind HandlerError.mentionedTriple
          = some (lid.name, lid.factoryName, lid.resourceGroup))
      ∧ (read g dr).calls = [{ kind := .get, resourceGroup := lid.resourceGroup,
                               factoryName := lid.factoryName, name := lid.name }])
    ∧ (∀ lid, parseLinkedServiceID dd.id = some lid →
        dE = true → dNF = false →
      (delete dE dNF dd).result = some (.deleting lid.name lid.factoryName lid.resourceGroup)
      ∧ ((delete dE dNF dd).result.bind HandlerError.mentionedTriple
          = some (lid.name, lid.factoryName, lid.resourceGroup))
      ∧ (delete dE dNF dd).calls = [{ kind := .delete, resourceGroup := lid.resourceGroup,
                                      factoryName := lid.factoryName, name := lid.name }]) := by
  refine ⟨?_, ?_, ?_, ?_, ?_⟩
  · intro hnew hge hgnf
    subst hnew
    simp [createUpdate, hge, hgnf, HandlerError.mentionedTriple, getCallOf]
  · intro hpass hcou
    cases isNew with
    | false => simp [createUpdate, hcou, HandlerError.mentionedTriple, getCallOf, couCallOf]
    | true =>
      obtain ⟨h1, h2⟩ := hpass rfl
      rcases h1 with h1 | h1 <;> rcases h2 with h2 | h2 <;>
        simp [createUpdate, hcou, h1, h2, HandlerError.mentionedTriple, getCallOf, couCallOf]
  · intro hpass hcou hre
    cases isNew with
    | false => simp [createUpdate, hcou, hre, HandlerError.mentionedTriple, getCallOf, couCallOf]
    | true =>
      obtain ⟨h1, h2⟩ := hpass rfl
      rcases h1 with h1 | h1 <;> rcases h2 with h2 | h2 <;>
        simp [createUpdate, hcou, hre, h1, h2, HandlerError.mentionedTriple, getCallOf, couCallOf]
  · intro lid hp hge hgnf
    simp [read, hp, hge, hgnf, HandlerError.mentionedTriple]
  · intro lid hp hdE hdNF
    subst hdE; subst hdNF
    simp [delete, hp, HandlerError.mentionedTriple]

/-- Witness for C4: each of the five failure sites exercised at a concrete
input. -/
theorem c4_failures_wrapped_and_immediate_witness :
    ((createUpdate { errored := true, wasNotFound := false } false { errored := false }
        { errored := false } true { name := "n2", dataFactoryName := "f2", resourceGroupName := "g2" }).result
      = some (.checkingExisting "n2" "f2" "g2"))
    ∧ ((createUpdate { errored := false } true { errored := false } { errored := false } false
        { name := "n2", dataFactoryName := "f2", resourceGroupName := "g2" }).calls
      = [couCallOf { name := "n2", dataFactoryName := "f2", resourceGroupName := "g2" }])
    ∧ ((createUpdate { errored := false } false { errored := true } { errored := false } false
        { name := "n2", dataFactoryName := "f2", resourceGroupName := "g2" }).result
      = some (.retrieving "n2" "f2" "g2"))
    ∧ ((read { errored := true, wasNotFound := false }
        { id := "/subscriptions/s/resourceGroups/rg2/providers/Microsoft.DataFactory/factories/df2/linkedservices/ls2" }).result
      = some (.retrieving "ls2" "df2" "rg2"))
    ∧ ((delete true false
        { id := "/subscriptions/s/resourceGroups/rg2/providers/Microsoft.DataFactory/factories/df2/linkedservices/ls2" }).result
      = some (.deleting "ls2" "df2" "rg2")) := by
  refine ⟨?_, ?_, ?_, ?_, ?_⟩
  · exact ((c4_failures_wrapped_and_immediate { errored := true, wasNotFound := false } false
      { errored := false } { errored := false } true { errored := false } false false
      { name := "n2", dataFactoryName := "f2", resourceGroupName := "g2" }
      { id := "" } { id := "" }).1 rfl rfl rfl).1
  · exact ((c4_failures_wrapped_and_immediate { errored := false } true
      { errored := false } { errored := false } false { errored := false } false false
      { name := "n2", dataFactoryName := "f2", resourceGroupName := "g2" }
      { id := "" } { id := "" }).2.1 (by decide) rfl).2.2
  · exact ((c4_failures_wrapped_and_immediate { errored := false } false
      { errored := true } { errored := false } false { errored := false } false false
      { name := "n2", dataFactoryName := "f2", resourceGroupName := "g2" }
      { id := "" } { id := "" }).2.2.1 (by decide) rfl rfl).1
  · exact ((c4_failures_wrapped_and_immediate { errored := false } false
      { errored := false } { errored := false } false { errored := true, wasNotFound := false } false false
      { id := "" }
      { id := "/subscriptions/s/resourceGroups/rg2/providers/Microsoft.DataFactory/factories/df2/linkedservices/ls2" }
      { id := "" }).2.2.2.1
      { resourceGroup := "rg2", factoryName := "df2", name := "ls2" } (by decide) rfl rfl).1
  · exact ((c4_failures_wrapped_and_immediate { errored := false } false
      { errored := false } { errored := false } false { errored := false } true false
      { id := "" } { id := "" }
      { id := "/subscriptions/s/resourceGroups/rg2/providers/Microsoft.DataFactory/factories/df2/linkedservices/ls2" }).2.2.2.2
      { resourceGroup := "rg2", factoryName := "df2", name := "ls2" } (by decide) rfl rfl).1

/-- Claim C5: with the existence check passed and CreateOrUpdate successful,
CreateUpdate re-reads the resource (a Get after the CreateOrUpdate in the
trace) and stores the returned identifier as the resource ID before the
trailing Read; if the re-read returns a nil ID it errors and the stored ID
is unchanged. -/
theorem c5_reread_stores_returned_id
    (e : GetResult) (cE : Bool) (r fr : GetResult) (isNew : Bool) (d : State)
    (hpass : existenceCheckPasses isNew e) (hcou : cE = false) :
    (∀ rid, r.errored = false → r.id = some rid →
      createUpdate e cE r fr isNew d =
        { result := (read fr { d with id := rid }).result,
          state := (read fr { d with id := rid }).state,
          calls := (if isNew then [getCallOf d] else [])
                    ++ [couCallOf d, getCallOf d] ++ (read fr { d with id := rid }).calls })
    ∧ (∀ rid sql lid, r.errored = false → r.id = some rid →
        fr.errored = false → fr.properties = some (.azureSQLDatabase sql) →
        parseLinkedServiceID rid = some lid →
        (createUpdate e cE r fr isNew d).state.id = rid)
    ∧ (r.errored = false → r.id = none →
      createUpdate e cE r fr isNew d =
        { result := some (.idWasNil d.name d.dataFactoryName d.resourceGroupName),
          state := d,
          calls := (if isNew then [getCallOf d] else []) ++ [couCallOf d, getCallOf d] }) := by
  have key : ∀ rid, r.errored = false → r.id = some rid →
      createUpdate e cE r fr isNew d =
        { result := (read fr { d with id := rid }).result,
          state := (read fr { d with id := rid }).state,
          calls := (if isNew then [getCallOf d] else [])
                    ++ [couCallOf d, getCallOf d] ++ (read fr { d with id := rid }).calls } := by
    intro rid hre hrid
    cases isNew with
    | false => simp [createUpdate, hcou, hre, hrid, getCallOf, couCallOf]
    | true =>
      obtain ⟨h1, h2⟩ := hpass rfl
      rcases h1 with h1 | h1 <;> rcases h2 with h2 | h2 <;>
        simp [createUpdate, hcou, hre, hrid, h1, h2, getCallOf, couCallOf]
  refine ⟨key, ?_, ?_⟩
  · intro rid sql lid hre hrid hfe hfs hplid
    rw [key rid hre hrid]
    have hp2 : parseLinkedServiceID (State.id { d with id := rid }) = some lid := hplid
    rw [read_success fr { d with id := rid } lid sql hp2 hfe hfs]
    rfl
  · intro hre hrid
    cases isNew with
    | false => simp [createUpdate, hcou, hre, hrid, getCallOf, couCallOf]
    | true =>
      obtain ⟨h1, h2⟩ := hpass rfl
      rcases h1 with h1 | h1 <;> rcases h2 with h2 | h2 <;>
        simp [createUpdate, hcou, hre, hrid, h1, h2, getCallOf, couCallOf]

/-- Witness for C5: a concrete create whose re-read returns an identifier,
which ends up stored, and one whose re-read carries no identifier, which
errors with the ID unchanged. -/
theorem c5_reread_stores_returned_id_witness :
    ((createUpdate { errored := false } false
        { errored := false,
          id := some "/subscriptions/s/resourceGroups/rg3/providers/Microsoft.DataFactory/factories/df3/linkedservices/ls3" }
        { errored := false, properties := some (.azureSQLDatabase { typeProperties := {} }) }
        false { name := "ls3", dataFactoryName := "df3", resourceGroupName := "rg3" }).state.id
      = "/subscriptions/s/resourceGroups/rg3/providers/Microsoft.DataFactory/factories/df3/linkedservices/ls3")
    ∧ (createUpdate { errored := false } false { errored := false } { errored := false }
        false { name := "ls3", dataFactoryName := "df3", resourceGroupName := "rg3" } =
      { result := some (.idWasNil "ls3" "df3" "rg3"),
        state := { name := "ls3", dataFactoryName := "df3", resourceGroupName := "rg3" },
        calls := [couCallOf { name := "ls3", dataFactoryName := "df3", resourceGroupName := "rg3" },
                  getCallOf { name := "ls3", dataFactoryName := "df3", resourceGroupName := "rg3" }] }) := by
  constructor
  · exact (c5_reread_stores_returned_id { errored := false } false
      { errored := false,
        id := some "/subscriptions/s/resourceGroups/rg3/providers/Microsoft.DataFactory/factories/df3/linkedservices/ls3" }
      { errored := false, properties := some (.azureSQLDatabase { typeProperties := {} }) }
      false { name := "ls3", dataFactoryName := "df3", resourceGroupName := "rg3" }
      (by decide) rfl).2.1
      "/subscriptions/s/resourceGroups/rg3/providers/Microsoft.DataFactory/factories/df3/linkedservices/ls3"
      { typeProperties := {} }
      { resourceGroup := "rg3", factoryName := "df3", name := "ls3" }
      rfl rfl rfl rfl (by decide)
  · have h := (c5_reread_stores_returned_id { errored := false } false { errored := false }
      { errored := false } false
      { name := "ls3", dataFactoryName := "df3", resourceGroupName := "rg3" }
      (by decide) rfl).2.2 rfl rfl
    simpa using h

theorem createUpdate_calls_shape (e : GetResult) (cE : Bool) (r fr : GetResult)
    (isNew : Bool) (dc : State) :
    (createUpdate e cE r fr isNew dc).calls = (if isNew then [getCallOf dc] else [])
    ∨ (createUpdate e cE r fr isNew dc).calls
        = (if isNew then [getCallOf dc] else []) ++ [couCallOf dc]
    ∨ (createUpdate e cE r fr isNew dc).calls
        = (if isNew then [getCallOf dc] else []) ++ [couCallOf dc, getCallOf dc]
    ∨ ∃ rid, r.id = some rid ∧
        (createUpdate e cE r fr isNew dc).calls
          = (if isNew then [getCallOf dc] else []) ++ [couCallOf dc, getCallOf dc]
              ++ (read fr { dc with id := rid }).calls := by
  simp only [createUpdate, getCallOf, couCallOf]
  split
  · exact Or.inl rfl
  · cases hcou : cE with
    | true => exact Or.inr (Or.inl (by simp))
    | false =>
      cases hre : r.errored with
      | true => exact Or.inr (Or.inr (Or.inl (by simp [hre])))
      | false =>
        cases hri : r.id with
        | none => exact Or.inr (Or.inr (Or.inl (by simp [hre, hri])))
        | some rid =>
          exact Or.inr (Or.inr (Or.inr ⟨rid, rfl, by simp [hre, hri]⟩))

/-- Claim C9: every remote call addresses the (resource group, data factory,
name) triple: Read and Delete parse it from the stored identifier and make
no call (failing instead) when parsing fails; CreateUpdate uses the
configured triple for its own calls, its trailing Read the triple parsed
from the identifier it just stored. -/
theorem c9_calls_address_the_triple
    (g : GetResult) (dE dNF : Bool) (e : GetResult) (cE : Bool) (r fr : GetResult)
    (isNew : Bool) (dr dd dc : State) :
    ((parseLinkedServiceID dr.id = none →
        read g dr = { result := some (.parseIdError dr.id), state := dr, calls := [] })
     ∧ (∀ lid, parseLinkedServiceID dr.id = some lid →
         ∀ c ∈ (read g dr).calls,
           c.kind = .get ∧ c.addresses lid.resourceGroup lid.factoryName lid.name))
    ∧ ((parseLinkedServiceID dd.id = none →
        delete dE dNF dd = { result := some (.parseIdError dd.id), state := dd, calls := [] })
     ∧ (∀ lid, parseLinkedServiceID dd.id = some lid →
         ∀ c ∈ (delete dE dNF dd).calls,
           c.kind = .delete ∧ c.addresses lid.resourceGroup lid.factoryName lid.name))
    ∧ (∀ c ∈ (createUpdate e cE r fr isNew dc).calls,
        c.addresses dc.resourceGroupName dc.dataFactoryName dc.name
        ∨ ∃ rid lid, r.id = some rid ∧ parseLinkedServiceID rid = some lid
            ∧ c.addresses lid.resourceGroup lid.factoryName lid.name) := by
  refine ⟨⟨?_, ?_⟩, ⟨?_, ?_⟩, ?_⟩
  · intro hp; simp [read, hp]
  · intro lid hp c hc
    rw [read_calls_eq g dr lid hp] at hc
    simp only [List.mem_singleton] at hc
    subst hc
    exact ⟨rfl, rfl, rfl, rfl⟩
  · intro hp; simp [delete, hp]
  · intro lid hp c hc
    rw [delete_calls_eq dE dNF dd lid hp] at hc
    simp only [List.mem_singleton] at hc
    subst hc
    exact ⟨rfl, rfl, rfl, rfl⟩
  · intro c hc
    have hpre : ∀ x ∈ (if isNew then [getCallOf dc] else []),
        x.addresses dc.resourceGroupName dc.dataFactoryName dc.name := by
      cases isNew <;> simp [getCallOf, RemoteCall.addresses]
    rcases createUpdate_calls_shape e cE r fr isNew dc with h | h | h | ⟨rid, hrid, h⟩ <;>
      rw [h] at hc
    · exact Or.inl (hpre c hc)
    · rcases List.mem_append.mp hc with h1 | h1
      · exact Or.inl (hpre c h1)
      · simp only [List.mem_singleton] at h1
        subst h1
        exact Or.inl ⟨rfl, rfl, rfl⟩
    · rcases List.mem_append.mp hc with h1 | h1
      · exact Or.inl (hpre c h1)
      · rcases List.mem_cons.mp h1 with h2 | h2
        · subst h2; exact Or.inl ⟨rfl, rfl, rfl⟩
        · simp only [List.mem_singleton] at h2
          subst h2
          exact Or.inl ⟨rfl, rfl, rfl⟩
    · rcases List.mem_append.mp hc with h1 | h1
      · rcases List.mem_append.mp h1 with h2 | h2
        · exact Or.inl (hpre c h2)
        · rcases List.mem_cons.mp h2 with h3 | h3
          · subst h3; exact Or.inl ⟨rfl, rfl, rfl⟩
          · simp only [List.mem_singleton] at h3
            subst h3
            exact Or.inl ⟨rfl, rfl, rfl⟩
      · cases hpr : parseLinkedServiceID rid with
        | none =>
          have hz : (read fr { dc with id := rid }).calls = [] := by
            simp [read, hpr]
          rw [hz] at h1
          exact absurd h1 (List.not_mem_nil c)
        | some lid =>
          have hp2 : parseLinkedServiceID (State.id { dc with id := rid }) = some lid := hpr
          rw [read_calls_eq fr { dc with id := rid } lid hp2] at h1
          simp only [List.mem_singleton] at h1
          subst h1
          exact Or.inr ⟨rid, lid, hrid, hpr, rfl, rfl, rfl⟩

/-- Witness for C9: concrete parse-failure and parse-success runs of Read
and Delete, and a concrete CreateUpdate call. -/
theorem c9_calls_address_the_triple_witness :
    (read { errored := false } { id := "not-an-id" }
      = { result := some (.parseIdError "not-an-id"), state := { id := "not-an-id" }, calls := [] })
    ∧ (delete false false { id := "not-an-id" }
      = { result := some (.parseIdError "not-an-id"), state := { id := "not-an-id" }, calls := [] })
    ∧ (({ kind := .delete, resourceGroup := "rg4", factoryName := "df4", name := "ls4" } :
          RemoteCall).addresses "rg4" "df4" "ls4")
    ∧ (getCallOf { name := "n4", dataFactoryName := "f4", resourceGroupName := "g4" }).addresses
        "g4" "f4" "n4" := by
  have h := c9_calls_address_the_triple { errored := false } false false
    { errored := false } true { errored := false } { errored := false } true
    { id := "not-an-id" }
    { id := "/subscriptions/s/resourceGroups/rg4/providers/Microsoft.DataFactory/factories/df4/linkedservices/ls4" }
    { name := "n4", dataFactoryName := "f4", resourceGroupName := "g4" }
  refine ⟨h.1.1 (by decide), ?_, ?_, ?_⟩
  · exact (c9_calls_address_the_triple { errored := false } false false
      { errored := false } true { errored := false } { errored := false } true
      { id := "not-an-id" } { id := "not-an-id" }
      { name := "n4", dataFactoryName := "f4", resourceGroupName := "g4" }).2.1.1 (by decide)
  · exact (h.2.1.2 { resourceGroup := "rg4", factoryName := "df4", name := "ls4" } (by decide)
      { kind := .delete, resourceGroup := "rg4", factoryName := "df4", name := "ls4" }
      (by decide)).2
  · have hm := h.2.2 (getCallOf { name := "n4", dataFactoryName := "f4", resourceGroupName := "g4" })
      (by decide)
    rcases hm with hm | ⟨rid, lid, hrid, _⟩
    · exact hm
    · exact Option.noConfusion hrid

/-- Claim C1: expanding an accepted configuration into the API request
(CreateUpdate's expansion) and flattening that request's content back
(Read's flattening, the API echoing exactly what was sent) reproduces the
configuration: Read succeeds and the whole attribute set, in particular
connection_string, description, tenant_id, key_vault_password, parameters,
annotations, additional_properties and integration_runtime_name, is
unchanged. -/
theorem c1_expand_flatten_roundtrip (cfg : State) (g : GetResult)
    (hparse : parseLinkedServiceID cfg.id =
        some { resourceGroup := cfg.resourceGroupName,
               factoryName := cfg.dataFactoryName, name := cfg.name })
    (hkvp : cfg.keyVaultPassword.length ≤ 1)
    (he : g.errored = false)
    (hn : g.name = some cfg.name)
    (hs : g.properties = some (.azureSQLDatabase (buildAzureSQLDatabaseLinkedService cfg))) :
    (read g cfg).result = none ∧ (read g cfg).state = cfg := by
  rw [read_success g cfg _ _ hparse he hs]
  refine ⟨rfl, ?_⟩
  rw [buildAzureSQLDatabaseLinkedService_eq]
  obtain ⟨cid, cn, cdf, crg, ccs, cdesc, ckvp, cumi, cspid, cspk, cten, cirn, cpar, cann, cap⟩ := cfg
  simp only at hn
  rcases ckvp with _ | ⟨⟨bl, bs⟩, _ | ⟨b2, t2⟩⟩ <;>
    first
      | (exfalso; simp only [List.length_cons] at hkvp; omega)
      | (cases cumi <;>
          by_cases h3 : cpar = [] <;> by_cases h4 : cann = [] <;> by_cases h5 : cap = [] <;>
          by_cases h6 : cirn = "" <;>
          simp_all [flattenIntoState,
            flattenDataFactoryParameters_expand, flattenDataFactoryParameters_none,
            flattenDataFactoryAnnotations, expandAzureKeyVaultPassword,
            flattenAzureKeyVaultPassword, expandDataFactoryLinkedServiceIntegrationRuntime])

/-- Witness for C1 at a fully-populated concrete configuration. -/
theorem c1_expand_flatten_roundtrip_witness :
    ((read { errored := false, name := some "ls5",
             properties := some (.azureSQLDatabase (buildAzureSQLDatabaseLinkedService
               { id := "/subscriptions/s/resourceGroups/rg5/providers/Microsoft.DataFactory/factories/df5/linkedservices/ls5",
                 name := "ls5", dataFactoryName := "df5", resourceGroupName := "rg5",
                 connectionString := "Server=x;Database=y", description := "a database",
                 keyVaultPassword := [{ linkedServiceName := "kv", secretName := "pw" }],
                 useManagedIdentity := false, servicePrincipalID := "sp-id",
                 servicePrincipalKey := "sp-key", tenantID := "tenant",
                 integrationRuntimeName := "ir1",
                 parameters := [("p1", "v1"), ("p2", "v2")],
                 annotations := ["a1", "a2"],
                 additionalProperties := [("k1", "w1")] })) }
        { id := "/subscriptions/s/resourceGroups/rg5/providers/Microsoft.DataFactory/factories/df5/linkedservices/ls5",
          name := "ls5", dataFactoryName := "df5", resourceGroupName := "rg5",
          connectionString := "Server=x;Database=y", description := "a database",
          keyVaultPassword := [{ linkedServiceName := "kv", secretName := "pw" }],
          useManagedIdentity := false, servicePrincipalID := "sp-id",
          servicePrincipalKey := "sp-key", tenantID := "tenant",
          integrationRuntimeName := "ir1",
          parameters := [("p1", "v1"), ("p2", "v2")],
          annotations := ["a1", "a2"],
          additionalProperties := [("k1", "w1")] }).result = none)
    ∧ (read { errored := false, name := some "ls5",
              properties := some (.azureSQLDatabase (buildAzureSQLDatabaseLinkedService
                { id := "/subscriptions/s/resourceGroups/rg5/providers/Microsoft.DataFactory/factories/df5/linkedservices/ls5",
                  name := "ls5", dataFactoryName := "df5", resourceGroupName := "rg5",
                  connectionString := "Server=x;Database=y", description := "a database",
                  keyVaultPassword := [{ linkedServiceName := "kv", secretName := "pw" }],
                  useManagedIdentity := false, servicePrincipalID := "sp-id",
                  servicePrincipalKey := "sp-key", tenantID := "tenant",
                  integrationRuntimeName := "ir1",
                  parameters := [("p1", "v1"), ("p2", "v2")],
                  annotations := ["a1", "a2"],
                  additionalProperties := [("k1", "w1")] })) }
        { id := "/subscriptions/s/resourceGroups/rg5/providers/Microsoft.DataFactory/factories/df5/linkedservices/ls5",
          name := "ls5", dataFactoryName := "df5", resourceGroupName := "rg5",
          connectionString := "Server=x;Database=y", description := "a database",
          keyVaultPassword := [{ linkedServiceName := "kv", secretName := "pw" }],
          useManagedIdentity := false, servicePrincipalID := "sp-id",
          servicePrincipalKey := "sp-key", tenantID := "tenant",
          integrationRuntimeName := "ir1",
          parameters := [("p1", "v1"), ("p2", "v2")],
          annotations := ["a1", "a2"],
          additionalProperties := [("k1", "w1")] }).state
      = { id := "/subscriptions/s/resourceGroups/rg5/providers/Microsoft.DataFactory/factories/df5/linkedservices/ls5",
          name := "ls5", dataFactoryName := "df5", resourceGroupName := "rg5",
          connectionString := "Server=x;Database=y", description := "a database",
          keyVaultPassword := [{ linkedServiceName := "kv", secretName := "pw" }],
          useManagedIdentity := false, servicePrincipalID := "sp-id",
          servicePrincipalKey := "sp-key", tenantID := "tenant",
          integrationRuntimeName := "ir1",
          parameters := [("p1", "v1"), ("p2", "v2")],
          annotations := ["a1", "a2"],
          additionalProperties := [("k1", "w1")] } := by
  exact c1_expand_flatten_roundtrip
    { id := "/subscriptions/s/resourceGroups/rg5/providers/Microsoft.DataFactory/factories/df5/linkedservices/ls5",
      name := "ls5", dataFactoryName := "df5", resourceGroupName := "rg5",
      connectionString := "Server=x;Database=y", description := "a database",
      keyVaultPassword := [{ linkedServiceName := "kv", secretName := "pw" }],
      useManagedIdentity := false, servicePrincipalID := "sp-id",
      servicePrincipalKey := "sp-key", tenantID := "tenant",
      integrationRuntimeName := "ir1",
      parameters := [("p1", "v1"), ("p2", "v2")],
      annotations := ["a1", "a2"],
      additionalProperties := [("k1", "w1")] }
    { errored := false, name := some "ls5",
      properties := some (.azureSQLDatabase (buildAzureSQLDatabaseLinkedService
        { id := "/subscriptions/s/resourceGroups/rg5/providers/Microsoft.DataFactory/factories/df5/linkedservices/ls5",
          name := "ls5", dataFactoryName := "df5", resourceGroupName := "rg5",
          connectionString := "Server=x;Database=y", description := "a database",
          keyVaultPassword := [{ linkedServiceName := "kv", secretName := "pw" }],
          useManagedIdentity := false, servicePrincipalID := "sp-id",
          servicePrincipalKey := "sp-key", tenantID := "tenant",
          integrationRuntimeName := "ir1",
          parameters := [("p1", "v1"), ("p2", "v2")],
          annotations := ["a1", "a2"],
          additionalProperties := [("k1", "w1")] })) }
    (by decide) (by decide) rfl rfl rfl

end DataFactorySQL
